import Mathlib

/-!
Shallow embedding of the xiaozhi chat-server gateway
(src/chat-server: app.py, services/message_handler.py,
services/session_service.py, services/llm_service.py).

Python values, exceptions and outbound websocket messages are modelled by
small inductive types; dictionaries by ordered association lists with the
in-place-replace-or-append update semantics of dict assignment; awaited
backend calls by oracle functions plus explicit outcome parameters; a raised
exception by an error value threaded to the caller.
-/

namespace Xiaozhi

/-- A JSON-ish Python value as used in audio_params entries. -/
inductive PyVal where
  | str : String → PyVal
  | int : Nat → PyVal
deriving DecidableEq, Repr

/-- A Python exception relevant to the embedded code paths. -/
inductive PyError where
  | attributeError : String → PyError
  | typeError : String → PyError
deriving DecidableEq, Repr

/-- One outbound message to the client: each constructor mirrors one literal
send_json dict (or send_bytes call) in message_handler.py. The ttsStart
sample rate is the result of the dict lookup audio_params["sample_rate"]. -/
inductive OutMsg where
  | stateAck : String → OutMsg
  | stt : String → OutMsg
  | ttsStart : Option PyVal → OutMsg
  | ttsSentenceStart : String → OutMsg
  | binary : List Nat → OutMsg
  | ttsSentenceEnd : OutMsg
  | ttsStop : OutMsg
deriving DecidableEq, Repr

/-- Lookup of a key in a Python dict modelled as an association list
(first occurrence; keys stay unique under dictInsert). -/
def dictLookup : List (String × PyVal) → String → Option PyVal
  | [], _ => none
  | p :: d, k => if p.1 = k then some p.2 else dictLookup d k

/-- Python dict assignment d[k] = v: replace the value at an existing key in
place, otherwise append the new pair at the end. -/
def dictInsert : List (String × PyVal) → String × PyVal → List (String × PyVal)
  | [], kv => [kv]
  | p :: d, kv => if p.1 = kv.1 then kv :: d else p :: dictInsert d kv

/-- Python dict.update(u): assign every pair of u into d, left to right. -/
def dictUpdate (d : List (String × PyVal)) (u : List (String × PyVal)) :
    List (String × PyVal) :=
  u.foldl dictInsert d

/-- ChatSession as constructed by session_service.ChatSession.__init__
(session_service.py lines 106-120). The fields vad_task, pending_audio and
service_session model Python attributes: __init__ assigns service_session =
None and assigns vad_task and pending_audio not at all, and no other
statement in the repository assigns any of the three, so for every session
the code constructs, service_session is none and reading vad_task or
pending_audio raises AttributeError — modelled as an Option that is none.
(vad_task / pending_audio: some means the attribute exists with that value;
none means the attribute is missing and access raises.) -/
structure ChatSession where
  client_id : String
  last_activity : Nat
  service_session : Option Unit
  state : String
  response_mode : String
  audio_params : List (String × PyVal)
  vad_task : Option Bool
  pending_audio : Option (List (List Nat))
deriving DecidableEq, Repr

/-- session_service.ChatSession.__init__: initial field values. -/
def ChatSession.init (cid : String) (now : Nat) : ChatSession :=
  { client_id := cid
    last_activity := now
    service_session := none
    state := "idle"
    response_mode := "auto"
    audio_params :=
      [("format", PyVal.str "opus"), ("sample_rate", PyVal.int 16000),
       ("channels", PyVal.int 1)]
    vad_task := none
    pending_audio := none }

/-- session_service.ChatSession.set_state (lines 243-247): store the new
state and refresh last_activity. -/
def ChatSession.setState (s : ChatSession) (newState : String) (now : Nat) :
    ChatSession :=
  { s with state := newState, last_activity := now }

/-- Inbound hello control message: type "hello" with an optional
response_mode field and an audio_params dict (absent modelled as []). -/
structure HelloMsg where
  response_mode : Option String
  audio_params : List (String × PyVal)

/-- MessageHandler._handle_hello (message_handler.py lines 37-42):
response_mode := message.get("response_mode", "auto");
audio_params.update(message.get("audio_params", {})); nothing is sent. -/
def handleHello (s : ChatSession) (m : HelloMsg) : ChatSession × List OutMsg :=
  ({ s with
      response_mode := m.response_mode.getD "auto"
      audio_params := dictUpdate s.audio_params m.audio_params }, [])

/-- MessageHandler._handle_state (message_handler.py lines 44-69) on the
value of message.get("state") (none models an absent field; a non-string
value behaves like the unrecognized arm). Each recognized arm first calls
set_state and then its side condition; the calls process_pending_audio,
start_vad_detection and pause_audio_input name methods that ChatSession
never defines, so reaching them raises AttributeError. -/
def handleState (s : ChatSession) (now : Nat) (newState : Option String) :
    Except PyError (ChatSession × List OutMsg) :=
  match newState with
  | some "idle" =>
    let s1 := s.setState "idle" now
    if s1.response_mode = "manual" then
      Except.error (PyError.attributeError "process_pending_audio")
    else Except.ok (s1, [])
  | some "wake_word_detected" =>
    let s1 := s.setState "wake_word_detected" now
    Except.ok (s1, [OutMsg.stateAck "wake_word_detected"])
  | some "listening" =>
    let s1 := s.setState "listening" now
    if s1.response_mode = "auto" then
      Except.error (PyError.attributeError "start_vad_detection")
    else Except.ok (s1, [])
  | some "speaking" =>
    let s1 := s.setState "speaking" now
    if s1.response_mode = "real_time" then Except.ok (s1, [])
    else Except.error (PyError.attributeError "pause_audio_input")
  | _ => Except.ok (s, [])

/-- Processing a sequence of state messages one after the other; a raised
exception propagates out of MessageHandler.handle_message (which logs and
re-raises), aborting the rest of the sequence. -/
def handleStates (s : ChatSession) (now : Nat) :
    List (Option String) → Except PyError ChatSession
  | [] => Except.ok s
  | m :: rest =>
    match handleState s now m with
    | Except.error e => Except.error e
    | Except.ok (s1, _) => handleStates s1 now rest

/-- MessageHandler._handle_abort (message_handler.py lines 71-81): reads
chat_session.vad_task (AttributeError when the attribute is missing), then
clears pending_audio, sets state idle and emits tts stop. -/
def handleAbort (s : ChatSession) (now : Nat) :
    Except PyError (ChatSession × List OutMsg) :=
  match s.vad_task with
  | none => Except.error (PyError.attributeError "vad_task")
  | some _ =>
    match s.pending_audio with
    | none => Except.error (PyError.attributeError "pending_audio")
    | some _ =>
      let s1 := { s with pending_audio := some [], state := "idle",
                         last_activity := now }
      Except.ok (s1, [OutMsg.ttsStop])

/-- Big-endian 16-bit value of two header bytes (struct format >H). -/
def u16be (b2 b3 : Nat) : Nat := b2 * 256 + b3

/-- The parse-and-validate part of MessageHandler._handle_binary_message
(message_handler.py lines 85-98): reject inputs shorter than 4 bytes and
inputs whose declared payload length differs from the remaining byte count;
otherwise yield (msg_type, reserved, payload). -/
def decodeFrame (data : List Nat) : Option (Nat × Nat × List Nat) :=
  if data.length < 4 then none
  else
    match data with
    | t :: r :: b2 :: b3 :: rest =>
      if data.length ≠ u16be b2 b3 + 4 then none else some (t, r, rest)
    | _ => none

/-- What a binary frame is routed to by _handle_binary_message. -/
inductive BinDispatch where
  | droppedShort
  | droppedBadLength
  | audio : List Nat → BinDispatch
  | jsonPayload : List Nat → BinDispatch
  | unknownType : Nat → List Nat → BinDispatch
deriving DecidableEq, Repr

/-- MessageHandler._handle_binary_message (lines 83-105): length checks,
then dispatch on msg_type (0 audio, 1 JSON, otherwise logged and dropped).
Malformed frames return without invoking any handler and without raising. -/
def handleBinaryMessage (data : List Nat) : BinDispatch :=
  if data.length < 4 then BinDispatch.droppedShort
  else
    match data with
    | t :: _r :: b2 :: b3 :: rest =>
      if data.length ≠ u16be b2 b3 + 4 then BinDispatch.droppedBadLength
      else if t = 0 then BinDispatch.audio rest
      else if t = 1 then BinDispatch.jsonPayload rest
      else BinDispatch.unknownType t rest
    | _ => BinDispatch.droppedShort

/-- Frame encoding from the spec frame layout: 4-byte header
msg_type, reserved, payload_length as 16-bit big-endian, then the payload. -/
def encodeFrame (t r : Nat) (payload : List Nat) : List Nat :=
  t :: r :: payload.length / 256 :: payload.length % 256 :: payload

/-- Count of positional arguments at the get_response_blocking call in
MessageHandler._handle_audio_data (message_handler.py line 122):
text, "conversation_id", "user". -/
def getResponseBlockingCallArgs : Nat := 3

/-- Count of required positional parameters (besides self) of
LLMService.get_response_blocking (llm_service.py line 28):
inputs, query, conversation_id, user. -/
def getResponseBlockingParams : Nat := 4

/-- The Python call llm_service.get_response_blocking(text,
"conversation_id", "user"): succeeds only when the positional argument
count matches the parameter count, otherwise raises TypeError for the
missing required positional argument. The oracle llm stands for the body
of get_response_blocking. -/
def callGetResponseBlocking (llm : String → String) (text : String) :
    Except PyError String :=
  if getResponseBlockingCallArgs = getResponseBlockingParams then
    Except.ok (llm text)
  else Except.error (PyError.typeError "get_response_blocking")

/-- MessageHandler._send_tts_response (message_handler.py lines 135-163):
emits tts start (with audio_params["sample_rate"]), tts sentence_start, the
raw synthesized audio bytes, tts sentence_end, tts stop. The oracle tts
stands for a successful service_session.text_to_speech round trip. -/
def sendTTSResponse (tts : String → List Nat) (s : ChatSession)
    (text : String) : List OutMsg :=
  [OutMsg.ttsStart (dictLookup s.audio_params "sample_rate"),
   OutMsg.ttsSentenceStart text,
   OutMsg.binary (tts text),
   OutMsg.ttsSentenceEnd,
   OutMsg.ttsStop]

/-- MessageHandler._handle_audio_data (message_handler.py lines 107-125):
empty payload is a boundary marker (no action); otherwise
chat_session.service_session.speech_to_text(payload) is called — when
service_session is None this raises AttributeError on NoneType — then the
stt message is sent, then the completion call, then _send_tts_response.
Returns the messages emitted before any raise, and the raised error if any.
The oracle asr stands for a successful speech_to_text round trip. -/
def handleAudioData (asr : List Nat → String) (llm : String → String)
    (tts : String → List Nat) (s : ChatSession) (payload : List Nat) :
    List OutMsg × Option PyError :=
  if payload.length = 0 then ([], none)
  else
    match s.service_session with
    | none => ([], some (PyError.attributeError "speech_to_text"))
    | some _ =>
      let text := asr payload
      match callGetResponseBlocking llm text with
      | Except.error e => ([OutMsg.stt text], some e)
      | Except.ok resp => (OutMsg.stt text :: sendTTSResponse tts s resp, none)

/-- A backend websocket link held by a ServiceSession; closed marks a link
the remote side has shut down. -/
structure Link where
  id : Nat
  closed : Bool
deriving DecidableEq, Repr

/-- ServiceSession._connect_service (app.py lines 41-57), the body of the
for-loop over range(reconnect_attempts), modelled over the list of
remaining attempt indices. dial gives the outcome of attempt i (some ws on
success, none when ws_connect raises). Returns the dialed link (none models
the final raised ConnectionError) together with the list of sleep durations
performed, in order: after a failed attempt i with i < n - 1 the code
sleeps reconnect_delay * (i + 1). -/
def connectLoop (n delay : Nat) (dial : Nat → Option Link) :
    List Nat → Option Link × List Nat
  | [] => (none, [])
  | a :: rest =>
    match dial a with
    | some ws => (some ws, [])
    | none =>
      let r := connectLoop n delay dial rest
      if a < n - 1 then (r.1, delay * (a + 1) :: r.2) else r

/-- ServiceSession._connect_service: the loop runs over range(n). -/
def connectService (n delay : Nat) (dial : Nat → Option Link) :
    Option Link × List Nat :=
  connectLoop n delay dial (List.range n)

/-- The cached links of one ServiceSession (app.py lines 34-39). -/
structure ServiceLinks where
  asr_ws : Option Link
  tts_ws : Option Link
deriving DecidableEq, Repr

/-- The guard of ensure_asr_connection / ensure_tts_connection:
the cached link is reusable when it is set and not closed. -/
def linkUsable : Option Link → Bool
  | some l => !l.closed
  | none => false

/-- ServiceSession.ensure_asr_connection (app.py lines 59-64): reuse a
usable cached link, otherwise dial via _connect_service and store the
result. On a dialing failure the raised ConnectionError (the error
component) propagates and the cached link is left exactly as it was.
Result: (new state, returned value or raised error, sleeps performed). -/
def ensureAsrConnection (n delay : Nat) (dial : Nat → Option Link)
    (st : ServiceLinks) : ServiceLinks × Except Unit Bool × List Nat :=
  if linkUsable st.asr_ws then (st, Except.ok true, [])
  else
    match connectService n delay dial with
    | (some ws, sleeps) =>
      ({ st with asr_ws := some ws }, Except.ok true, sleeps)
    | (none, sleeps) => (st, Except.error (), sleeps)

/-- ServiceSession.ensure_tts_connection (app.py lines 66-71). -/
def ensureTtsConnection (n delay : Nat) (dial : Nat → Option Link)
    (st : ServiceLinks) : ServiceLinks × Except Unit Bool × List Nat :=
  if linkUsable st.tts_ws then (st, Except.ok true, [])
  else
    match connectService n delay dial with
    | (some ws, sleeps) =>
      ({ st with tts_ws := some ws }, Except.ok true, sleeps)
    | (none, sleeps) => (st, Except.error (), sleeps)

/-- Outcome of one awaited wait_for step of a round trip: a value, an
asyncio.TimeoutError, or a WebSocketException. -/
inductive StepOutcome (α : Type) where
  | ok : α → StepOutcome α
  | timeout : StepOutcome α
  | wsError : StepOutcome α
deriving DecidableEq, Repr

/-- The errors a round trip raises to its caller. serviceTimeout is
ConnectionError("... service timeout") from the asyncio.TimeoutError arm,
serviceFailure is ConnectionError("... service communication failed") from
the WebSocketException arm, connectionFailure is the ConnectionError raised
by _connect_service (caught by neither except clause, so it propagates),
and attributeError is a Python AttributeError raised while evaluating an
argument inside the try block — also caught by neither except clause. -/
inductive ServiceError where
  | serviceTimeout
  | serviceFailure
  | connectionFailure
  | attributeError : String → ServiceError
deriving DecidableEq, Repr

/-- Whether SERVICE_TIMEOUT is a declared field of Settings: settings.py
declares REQUEST_TIMEOUT but no SERVICE_TIMEOUT, the repository ships no
.env adding one (pydantic BaseSettings only populates declared fields
anyway), and reading an undeclared attribute of a pydantic settings object
raises AttributeError. -/
def settingsHasServiceTimeout : Bool := false

/-- Whether WS_RECEIVE_TIMEOUT is a declared field of Settings: settings.py
declares WS_PING_INTERVAL, WS_PING_TIMEOUT and WS_CLOSE_TIMEOUT but no
WS_RECEIVE_TIMEOUT, so reading it raises AttributeError. -/
def settingsHasWsReceiveTimeout : Bool := false

/-- ServiceSession.speech_to_text (app.py lines 73-93): ensure the ASR
link, then evaluate the arguments of the first wait_for — this reads
settings.SERVICE_TIMEOUT (line 79) before anything is sent, and when that
field is undeclared the read raises AttributeError, which neither the
asyncio.TimeoutError arm nor the WebSocketException arm catches, so it
propagates with asr_ws left cached. Only with a declared SERVICE_TIMEOUT
would the send (sendO) and recv (recvO) arms run: a TimeoutError sets
asr_ws = None and raises serviceTimeout; a WebSocketException sets asr_ws
= None and raises serviceFailure; no arm retries the call. -/
def speechToText (n delay : Nat) (dial : Nat → Option Link)
    (sendO : StepOutcome Unit) (recvO : StepOutcome String)
    (st : ServiceLinks) : ServiceLinks × Except ServiceError String × List Nat :=
  match ensureAsrConnection n delay dial st with
  | (st1, Except.error _, sleeps) =>
    (st1, Except.error ServiceError.connectionFailure, sleeps)
  | (st1, Except.ok _, sleeps) =>
    if settingsHasServiceTimeout then
      match sendO with
      | StepOutcome.timeout =>
        ({ st1 with asr_ws := none }, Except.error ServiceError.serviceTimeout, sleeps)
      | StepOutcome.wsError =>
        ({ st1 with asr_ws := none }, Except.error ServiceError.serviceFailure, sleeps)
      | StepOutcome.ok _ =>
        match recvO with
        | StepOutcome.timeout =>
          ({ st1 with asr_ws := none }, Except.error ServiceError.serviceTimeout, sleeps)
        | StepOutcome.wsError =>
          ({ st1 with asr_ws := none }, Except.error ServiceError.serviceFailure, sleeps)
        | StepOutcome.ok text => (st1, Except.ok text, sleeps)
    else
      (st1, Except.error (ServiceError.attributeError "SERVICE_TIMEOUT"), sleeps)

/-- ServiceSession.text_to_speech (app.py lines 95-115): the same shape on
the TTS link, reading settings.SERVICE_TIMEOUT at line 101 before the send
and clearing tts_ws only in the two except arms. -/
def textToSpeech (n delay : Nat) (dial : Nat → Option Link)
    (sendO : StepOutcome Unit) (recvO : StepOutcome (List Nat))
    (st : ServiceLinks) :
    ServiceLinks × Except ServiceError (List Nat) × List Nat :=
  match ensureTtsConnection n delay dial st with
  | (st1, Except.error _, sleeps) =>
    (st1, Except.error ServiceError.connectionFailure, sleeps)
  | (st1, Except.ok _, sleeps) =>
    if settingsHasServiceTimeout then
      match sendO with
      | StepOutcome.timeout =>
        ({ st1 with tts_ws := none }, Except.error ServiceError.serviceTimeout, sleeps)
      | StepOutcome.wsError =>
        ({ st1 with tts_ws := none }, Except.error ServiceError.serviceFailure, sleeps)
      | StepOutcome.ok _ =>
        match recvO with
        | StepOutcome.timeout =>
          ({ st1 with tts_ws := none }, Except.error ServiceError.serviceTimeout, sleeps)
        | StepOutcome.wsError =>
          ({ st1 with tts_ws := none }, Except.error ServiceError.serviceFailure, sleeps)
        | StepOutcome.ok audio => (st1, Except.ok audio, sleeps)
    else
      (st1, Except.error (ServiceError.attributeError "SERVICE_TIMEOUT"), sleeps)

/-- The per-connection session of app.py (app.py lines 127-136): only the
fields the gateway loop and the sweep touch. -/
structure GwSession where
  client_id : Nat
  last_active_time : Nat
deriving DecidableEq, Repr

/-- What one receive in the gateway loop yields: a frame, or an
asyncio.TimeoutError from wait_for (a benign poll, the loop continues). -/
inductive RecvOutcome where
  | frame : List Nat → RecvOutcome
  | timeout : RecvOutcome
deriving DecidableEq, Repr

/-- One iteration of the websocket_endpoint receive loop (app.py lines
313-325): update_activity() runs first, setting last_active_time to the
current time, then the wait_for around receive_bytes is built — evaluating
settings.WS_RECEIVE_TIMEOUT (line 321) before the receive can complete.
When that field is undeclared, the read raises AttributeError inside the
try; the matching except arm (except Exception) logs and re-raises, so the
iteration ends the loop with that error and the receive outcome never
materializes. Only with a declared WS_RECEIVE_TIMEOUT would the outcome o
be reached: a timeout is a benign poll (continue) and a frame is processed,
the loop continuing either way. -/
def loopIter (s : GwSession) (t : Nat) (o : RecvOutcome) :
    GwSession × Option PyError :=
  let s1 := { s with last_active_time := t }
  if settingsHasWsReceiveTimeout then
    match o with
    | RecvOutcome.timeout => (s1, none)
    | RecvOutcome.frame _ => (s1, none)
  else
    (s1, some (PyError.attributeError "WS_RECEIVE_TIMEOUT"))

/-- The gateway loop over (iteration time, receive outcome) pairs: it runs
iterations until one raises, returning the session as left behind and the
raised error; websocket_endpoint catches that error, and its finally block
then removes the session from the registry at once. -/
def runLoop (s : GwSession) :
    List (Nat × RecvOutcome) → GwSession × Option PyError
  | [] => (s, none)
  | e :: rest =>
    match loopIter s e.1 e.2 with
    | (s1, some err) => (s1, some err)
    | (s1, none) => runLoop s1 rest

/-- SessionManager.cleanup_inactive_sessions (app.py lines 211-220):
removes every session with current_time - last_active_time > max_idle_time,
iterating a snapshot list of the sessions. -/
def cleanupInactiveSessions (sessions : List GwSession) (now maxIdle : Nat) :
    List GwSession :=
  sessions.filter (fun s => !(decide (now - s.last_active_time > maxIdle)))

/-- One registry entry: a client id together with the close behavior of the
session (whether service_session.close() would raise, and whether
websocket.close() would raise if it were invoked). -/
structure RegEntry where
  client_id : Nat
  svcCloseRaises : Bool
  wsCloseRaises : Bool
deriving DecidableEq, Repr

/-- One observable action during session teardown. -/
inductive Act where
  | svcCloseCall
  | logError
  | delEntry : Nat → Act
deriving DecidableEq, Repr

/-- ChatSession.close (app.py lines 138-149): two separate try blocks. The
first invokes service_session.close(); if that raises, its own except arm
logs and swallows the exception. The second runs regardless of the first
block; its guard "not self.websocket.client_state.DISCONNECTED" tests an
expression that never lets websocket.close() run (client_state.DISCONNECTED
names the enum member through a member: either a truthy value, making the
negation False, or an AttributeError swallowed by the except arm of that
block), so the second block performs no close call and whether
websocket.close() would raise never matters. The method itself never
raises. -/
def chatSessionClose (e : RegEntry) : List Act :=
  (Act.svcCloseCall :: (if e.svcCloseRaises then [Act.logError] else [])) ++ []

/-- SessionManager.remove_session (app.py lines 175-184): no-op when the id
is absent; otherwise run session.close() inside try/except (any raise is
logged) and delete the map entry in the finally block, so the deletion
happens whatever close did. Returns the new registry and the action trace. -/
def removeSession (sessions : List RegEntry) (cid : Nat) :
    List RegEntry × List Act :=
  match sessions.find? (fun e => e.client_id = cid) with
  | some e =>
    (sessions.filter (fun x => !(decide (x.client_id = cid))),
     chatSessionClose e ++ [Act.delEntry cid])
  | none => (sessions, [])

/-! Helper lemmas shared by the claim theorems. -/

/-- Assigning one key leaves the lookup of every other key unchanged. -/
theorem dictLookup_dictInsert_ne (d : List (String × PyVal))
    (kv : String × PyVal) (k : String) (h : kv.1 ≠ k) :
    dictLookup (dictInsert d kv) k = dictLookup d k := by
  induction d with
  | nil => simp [dictInsert, dictLookup, h]
  | cons p d ih =>
    by_cases hp : p.1 = kv.1
    · simp [dictInsert, hp, dictLookup, h]
    · simp [dictInsert, hp, dictLookup, ih]

/-- dict.update leaves the lookup of keys absent from the update unchanged. -/
theorem dictLookup_dictUpdate_absent (u d : List (String × PyVal))
    (k : String) (h : ∀ kv ∈ u, kv.1 ≠ k) :
    dictLookup (dictUpdate d u) k = dictLookup d k := by
  induction u generalizing d with
  | nil => rfl
  | cons kv u ih =>
    have h1 : kv.1 ≠ k := h kv (by simp)
    calc dictLookup (dictUpdate d (kv :: u)) k
        = dictLookup (dictUpdate (dictInsert d kv) u) k := rfl
      _ = dictLookup (dictInsert d kv) k :=
          ih (dictInsert d kv) (fun x hx => h x (by simp [hx]))
      _ = dictLookup d k := dictLookup_dictInsert_ne d kv k h1

/-- When every attempt in the remaining list fails, the dial loop fails and
performs the scheduled sleeps for the non-final attempts in that list. -/
theorem connectLoop_all_fail (n delay : Nat) (dial : Nat → Option Link)
    (l : List Nat) (h : ∀ a ∈ l, dial a = none) :
    connectLoop n delay dial l =
      (none,
       (l.filter (fun a => decide (a < n - 1))).map (fun a => delay * (a + 1))) := by
  induction l with
  | nil => rfl
  | cons a l ih =>
    have ha : dial a = none := h a (by simp)
    have ihl := ih (fun x hx => h x (by simp [hx]))
    rw [connectLoop, ha]
    by_cases hc : a < n - 1
    · simp [hc, ihl, List.filter_cons]
    · simp [hc, ihl, List.filter_cons]

/-- When every attempt before position k fails and attempt k succeeds, the
dial loop returns that link after sleeping only for the failed attempts. -/
theorem connectLoop_success (n delay : Nat) (dial : Nat → Option Link)
    (l1 l2 : List Nat) (k : Nat) (ws : Link)
    (h1 : ∀ a ∈ l1, dial a = none) (hk : dial k = some ws) :
    connectLoop n delay dial (l1 ++ k :: l2) =
      (some ws,
       (l1.filter (fun a => decide (a < n - 1))).map (fun a => delay * (a + 1))) := by
  induction l1 with
  | nil => simp [connectLoop, hk]
  | cons a l ih =>
    have ha : dial a = none := h1 a (by simp)
    have ihl := ih (fun x hx => h1 x (by simp [hx]))
    rw [List.cons_append, connectLoop, ha]
    by_cases hc : a < n - 1
    · simp [hc, ihl, List.filter_cons]
    · simp [hc, ihl, List.filter_cons]

/-- The attempts of range n that are followed by a sleep are exactly
range (n - 1). -/
theorem range_filter_lt_pred (n : Nat) :
    (List.range n).filter (fun a => decide (a < n - 1)) = List.range (n - 1) := by
  cases n with
  | zero => rfl
  | succ m =>
    rw [List.range_succ, List.filter_append]
    have h1 : (List.range m).filter (fun a => decide (a < Nat.succ m - 1)) =
        List.range m := by
      apply List.filter_eq_self.mpr
      intro a ha
      have := List.mem_range.mp ha
      simp
      omega
    have h2 : [m].filter (fun a => decide (a < Nat.succ m - 1)) = [] := by
      simp
    rw [h1, h2, List.append_nil]
    rfl

/-- Range n split at a position k < n. -/
theorem range_split (n k : Nat) (hk : k < n) :
    List.range n = List.range k ++ k :: List.range' (k + 1) (n - k - 1) := by
  rw [List.range_eq_range', List.range_eq_range']
  have h1 : List.range' 0 k 1 ++ List.range' (0 + 1 * k) (n - k) 1 =
      List.range' 0 (n - k + k) 1 := List.range'_append 0 k (n - k) 1
  have h2 : n - k + k = n := by omega
  have h3 : n - k = (n - k - 1) + 1 := by omega
  rw [h2] at h1
  rw [← h1, h3, List.range'_succ]
  simp [Nat.one_mul]

/-! The claim theorems. -/

/-- C2: the binary-frame decoder rejects any input shorter than 4 bytes and
any input whose declared payload_length differs from the byte count after
the 4-byte header; the frame is dropped without invoking the audio or JSON
handler and without raising, so the connection keeps processing. -/
theorem binary_decoder_rejects_malformed (data : List Nat) :
    (data.length < 4 → handleBinaryMessage data = BinDispatch.droppedShort) ∧
    (∀ t r b2 b3 rest, data = t :: r :: b2 :: b3 :: rest →
      u16be b2 b3 ≠ rest.length →
      handleBinaryMessage data = BinDispatch.droppedBadLength) := by
  constructor
  · intro h
    simp [handleBinaryMessage, h]
  · intro t r b2 b3 rest hdata hne
    subst hdata
    have hlen : (t :: r :: b2 :: b3 :: rest).length = rest.length + 4 := by
      simp
    rw [handleBinaryMessage, if_neg (by omega), if_pos (by omega)]

/-- Witness for C2 at Scenario D input (2 bytes) and at a frame whose
declared length 5 disagrees with its 3 payload bytes. -/
theorem binary_decoder_rejects_malformed_witness :
    handleBinaryMessage [0, 0] = BinDispatch.droppedShort ∧
    handleBinaryMessage [0, 0, 0, 5, 1, 2, 3] = BinDispatch.droppedBadLength :=
  ⟨(binary_decoder_rejects_malformed [0, 0]).1 (by decide),
   (binary_decoder_rejects_malformed [0, 0, 0, 5, 1, 2, 3]).2 0 0 0 5 [1, 2, 3]
     rfl (by decide)⟩

/-- C8: for msg_type 0 or 1 and any payload of at most 65535 bytes,
decoding the encoded frame recovers the original msg_type, reserved byte
and payload; the high length byte is a valid byte, and the decoded frame is
dispatched to the matching handler. -/
theorem frame_roundtrip (t r : Nat) (payload : List Nat)
    (ht : t = 0 ∨ t = 1) (hlen : payload.length ≤ 65535) :
    decodeFrame (encodeFrame t r payload) = some (t, r, payload) ∧
    payload.length / 256 < 256 ∧
    handleBinaryMessage (encodeFrame t r payload) =
      (if t = 0 then BinDispatch.audio payload
       else BinDispatch.jsonPayload payload) := by
  have henc : encodeFrame t r payload =
      t :: r :: payload.length / 256 :: payload.length % 256 :: payload := rfl
  have hu : u16be (payload.length / 256) (payload.length % 256) =
      payload.length := by
    unfold u16be
    omega
  have hlen5 : (t :: r :: payload.length / 256 :: payload.length % 256 ::
      payload).length = payload.length + 4 := by
    simp
  refine ⟨?_, by omega, ?_⟩
  · rw [henc, decodeFrame, if_neg (by omega), hu, if_neg (by omega)]
  · rcases ht with h | h <;> subst h
    · rw [henc, handleBinaryMessage, if_neg (by omega), hu,
        if_neg (by omega)]
      simp
    · rw [henc, handleBinaryMessage, if_neg (by omega), hu,
        if_neg (by omega)]
      simp

/-- Witness for C8 at the Scenario B frame: header 00 00 00 05 and payload
of 5 bytes. -/
theorem frame_roundtrip_witness :
    decodeFrame (encodeFrame 0 0 [1, 2, 3, 4, 5]) =
      some (0, 0, [1, 2, 3, 4, 5]) :=
  (frame_roundtrip 0 0 [1, 2, 3, 4, 5] (Or.inl rfl) (by decide)).1

/-- C3: the claim says abort always completes with the session idle, the
pending_audio buffer empty, the VAD task cancelled and one tts stop
emitted; on the code, processing abort on any session the repository
constructs raises AttributeError at the read of chat_session.vad_task
(ChatSession.__init__ never defines vad_task or pending_audio), so the
state is not forced to idle and no tts stop message is sent. -/
theorem abort_raises_attribute_error (cid : String) (t0 now : Nat) :
    handleAbort (ChatSession.init cid t0) now =
      Except.error (PyError.attributeError "vad_task") := rfl

/-- C7: the claim says the state after a sequence of state messages is its
last recognized value; on the code, a session in the default response_mode
auto raises AttributeError at start_vad_detection while processing a
listening message (the method is never defined), so the sequence
[listening, idle] aborts instead of ending in state idle. -/
theorem state_sequence_raises (cid : String) (t0 now : Nat) :
    handleStates (ChatSession.init cid t0) now [some "listening", some "idle"] =
      Except.error (PyError.attributeError "start_vad_detection") := rfl

/-- C1: the claim says a non-empty msg_type-0 frame drives the full
ASR-completion-TTS pipeline emitting stt, tts start, tts sentence_start,
the audio, tts sentence_end and tts stop; on the code, the session the
repository constructs has service_session = None, so the very first
pipeline step raises AttributeError and nothing is emitted; and even on a
session with a live connector the completion call passes 3 positional
arguments to the 4-parameter get_response_blocking, raising TypeError
right after the stt message, so the tts messages and the audio are never
sent. -/
theorem audio_turn_pipeline_bug (asr : List Nat → String)
    (llm : String → String) (tts : String → List Nat) (cid : String)
    (t0 : Nat) (payload : List Nat) (hne : payload.length ≠ 0) :
    handleAudioData asr llm tts (ChatSession.init cid t0) payload =
      ([], some (PyError.attributeError "speech_to_text")) ∧
    (∀ s : ChatSession, s.service_session = some () →
      handleAudioData asr llm tts s payload =
        ([OutMsg.stt (asr payload)],
         some (PyError.typeError "get_response_blocking"))) := by
  constructor
  · simp [handleAudioData, hne, ChatSession.init]
  · intro s hs
    simp [handleAudioData, hne, hs, callGetResponseBlocking,
      getResponseBlockingCallArgs, getResponseBlockingParams]

/-- Witness for C1 at the Scenario B payload of 5 bytes. -/
theorem audio_turn_pipeline_bug_witness :
    handleAudioData (fun _ => "hello") (fun _ => "reply") (fun _ => [7])
      (ChatSession.init "c" 0) [1, 2, 3, 4, 5] =
      ([], some (PyError.attributeError "speech_to_text")) :=
  (audio_turn_pipeline_bug (fun _ => "hello") (fun _ => "reply") (fun _ => [7])
    "c" 0 [1, 2, 3, 4, 5] (by decide)).1

/-- C10: processing hello sends no reply and modifies only response_mode
and audio_params: response_mode becomes the message field, or "auto" when
the field is absent, discarding any prior value; audio_params is merged
key-by-key so keys absent from the message keep their prior values; and
the state, backend-connector reference, activity timestamp, client id and
the remaining attributes are untouched. -/
theorem hello_updates_only_mode_and_params (s : ChatSession) (m : HelloMsg) :
    (handleHello s m).2 = [] ∧
    (handleHello s m).1.response_mode = m.response_mode.getD "auto" ∧
    (∀ k, (∀ kv ∈ m.audio_params, kv.1 ≠ k) →
      dictLookup (handleHello s m).1.audio_params k =
        dictLookup s.audio_params k) ∧
    (handleHello s m).1.state = s.state ∧
    (handleHello s m).1.last_activity = s.last_activity ∧
    (handleHello s m).1.service_session = s.service_session ∧
    (handleHello s m).1.client_id = s.client_id ∧
    (handleHello s m).1.vad_task = s.vad_task ∧
    (handleHello s m).1.pending_audio = s.pending_audio := by
  refine ⟨rfl, rfl, ?_, rfl, rfl, rfl, rfl, rfl, rfl⟩
  intro k hk
  exact dictLookup_dictUpdate_absent m.audio_params s.audio_params k hk

/-- Witness for C10: a hello with no response_mode field and an
audio_params update touching only sample_rate leaves the format key at its
prior value and resets response_mode to auto. -/
theorem hello_updates_only_mode_and_params_witness :
    dictLookup (handleHello (ChatSession.init "c" 0)
        ⟨none, [("sample_rate", PyVal.int 24000)]⟩).1.audio_params "format" =
      dictLookup (ChatSession.init "c" 0).audio_params "format" ∧
    (handleHello (ChatSession.init "c" 0)
        ⟨none, [("sample_rate", PyVal.int 24000)]⟩).1.response_mode = "auto" :=
  ⟨(hello_updates_only_mode_and_params (ChatSession.init "c" 0)
      ⟨none, [("sample_rate", PyVal.int 24000)]⟩).2.2.1 "format" (by decide),
   (hello_updates_only_mode_and_params (ChatSession.init "c" 0)
      ⟨none, [("sample_rate", PyVal.int 24000)]⟩).2.1⟩

/-- C9: remove on the session registry is idempotent: a no-op when the id
is absent; when present, the entry is deleted whatever the close steps
raise (the deletion sits in a finally block, so it appears in the teardown
trace unconditionally), a second remove of the same id changes nothing,
and the websocket-close block of ChatSession.close is isolated from the
backend-link close: whether the websocket close would raise never alters
the teardown behavior. -/
theorem remove_session_idempotent (sessions : List RegEntry) (cid : Nat) :
    (sessions.find? (fun e => e.client_id = cid) = none →
      removeSession sessions cid = (sessions, [])) ∧
    (∀ e ∈ (removeSession sessions cid).1, e.client_id ≠ cid) ∧
    (∀ e, sessions.find? (fun x => x.client_id = cid) = some e →
      Act.delEntry cid ∈ (removeSession sessions cid).2) ∧
    (removeSession (removeSession sessions cid).1 cid).1 =
      (removeSession sessions cid).1 ∧
    (∀ sv w1 w2, chatSessionClose ⟨cid, sv, w1⟩ = chatSessionClose ⟨cid, sv, w2⟩) := by
  have hmem : ∀ e ∈ (removeSession sessions cid).1, e.client_id ≠ cid := by
    intro e he
    rw [removeSession] at he
    cases hfind : sessions.find? (fun x => x.client_id = cid) with
    | none =>
      rw [hfind] at he
      have := List.find?_eq_none.mp hfind e he
      simpa using this
    | some x =>
      rw [hfind] at he
      simp only [List.mem_filter] at he
      simpa using he.2
  refine ⟨?_, hmem, ?_, ?_, ?_⟩
  · intro h
    rw [removeSession, h]
  · intro e h
    rw [removeSession, h]
    simp
  · have hnone : (removeSession sessions cid).1.find?
        (fun x => x.client_id = cid) = none := by
      apply List.find?_eq_none.mpr
      intro x hx
      simpa using hmem x hx
    rw [removeSession, hnone]
  · intro sv w1 w2
    rfl

/-- Witness for C9: removing an absent id is a no-op, and removing the
same id twice equals removing it once, on a one-entry registry whose
session raises in both close steps. -/
theorem remove_session_idempotent_witness :
    removeSession ([] : List RegEntry) 5 = ([], []) ∧
    (removeSession (removeSession [⟨1, true, true⟩] 1).1 1).1 =
      (removeSession [⟨1, true, true⟩] 1).1 :=
  ⟨(remove_session_idempotent [] 5).1 rfl,
   (remove_session_idempotent [⟨1, true, true⟩] 1).2.2.2.1⟩

/-- C4: the claim says a session idle for more than maxIdle is removed by
the next sweep tick and every received frame resets the idle clock; on the
code, the very first receive iteration reads the undeclared
settings.WS_RECEIVE_TIMEOUT and raises AttributeError whatever the client
sends, so the loop processes no frame at all — the idle clock is never
reset by a frame — and websocket_endpoint tears the session down in its
finally block immediately, not at a sweep tick. The sweep itself, for
whatever is still registered, removes exactly the sessions whose
last_active_time lies more than maxIdle before the sweep instant. -/
theorem receive_loop_settings_bug (s : GwSession) (t : Nat) (o : RecvOutcome)
    (rest : List (Nat × RecvOutcome)) :
    runLoop s ((t, o) :: rest) =
      ({ s with last_active_time := t },
       some (PyError.attributeError "WS_RECEIVE_TIMEOUT")) ∧
    ∀ (sessions : List GwSession) (now maxIdle : Nat) (x : GwSession),
      x ∈ cleanupInactiveSessions sessions now maxIdle ↔
        x ∈ sessions ∧ now - x.last_active_time ≤ maxIdle := by
  constructor
  · cases o <;> rfl
  · intro sessions now maxIdle x
    rw [cleanupInactiveSessions, List.mem_filter]
    constructor
    · rintro ⟨h1, h2⟩
      refine ⟨h1, ?_⟩
      simp at h2
      omega
    · rintro ⟨h1, h2⟩
      refine ⟨h1, ?_⟩
      simp
      omega

/-- Witness for C4 at a concrete run: a frame arriving at time 5 is never
processed; the loop dies on its first iteration. -/
theorem receive_loop_settings_bug_witness :
    runLoop ⟨1, 0⟩ [(5, RecvOutcome.frame [9]), (7, RecvOutcome.timeout)] =
      (⟨1, 5⟩, some (PyError.attributeError "WS_RECEIVE_TIMEOUT")) :=
  (receive_loop_settings_bug ⟨1, 0⟩ 5 (RecvOutcome.frame [9])
    [(7, RecvOutcome.timeout)]).1

/-- C5: the connector makes at most the configured number of dial
attempts; when every attempt fails it performs exactly the sleeps
base_delay * 1, ..., base_delay * (attempts - 1) — each attempt after the
first preceded by base_delay times the index of the preceding failure —
and raises ConnectionFailure leaving the cached link exactly as its
unusable prior value; a first success at any attempt k returns that link
after only the k earlier sleeps and stores it, and a later call that finds
the stored open link dials and sleeps not at all. -/
theorem ensure_connection_retry (n delay : Nat) (dial : Nat → Option Link)
    (st : ServiceLinks) :
    ((∀ i < n, dial i = none) →
      connectService n delay dial =
        (none, (List.range (n - 1)).map fun j => delay * (j + 1))) ∧
    (∀ k ws, k < n → (∀ i < k, dial i = none) → dial k = some ws →
      connectService n delay dial =
        (some ws, (List.range k).map fun j => delay * (j + 1))) ∧
    ((∀ i < n, dial i = none) → linkUsable st.asr_ws = false →
      ensureAsrConnection n delay dial st =
        (st, Except.error (),
         (List.range (n - 1)).map fun j => delay * (j + 1))) ∧
    (∀ ws, 0 < n → dial 0 = some ws → linkUsable st.asr_ws = false →
      ensureAsrConnection n delay dial st =
        ({ st with asr_ws := some ws }, Except.ok true, [])) ∧
    (linkUsable st.asr_ws = true →
      ensureAsrConnection n delay dial st = (st, Except.ok true, [])) := by
  have hfail : (∀ i < n, dial i = none) →
      connectService n delay dial =
        (none, (List.range (n - 1)).map fun j => delay * (j + 1)) := by
    intro h
    rw [connectService,
      connectLoop_all_fail n delay dial (List.range n)
        (fun a ha => h a (List.mem_range.mp ha)),
      range_filter_lt_pred]
  have hsucc : ∀ k ws, k < n → (∀ i < k, dial i = none) → dial k = some ws →
      connectService n delay dial =
        (some ws, (List.range k).map fun j => delay * (j + 1)) := by
    intro k ws hk hlt hdial
    rw [connectService, range_split n k hk,
      connectLoop_success n delay dial (List.range k)
        (List.range' (k + 1) (n - k - 1)) k ws
        (fun a ha => hlt a (List.mem_range.mp ha)) hdial]
    have hfk : (List.range k).filter (fun a => decide (a < n - 1)) =
        List.range k := by
      apply List.filter_eq_self.mpr
      intro a ha
      have h2 := List.mem_range.mp ha
      simp
      omega
    rw [hfk]
  refine ⟨hfail, hsucc, ?_, ?_, ?_⟩
  · intro h hun
    have hcs := hfail h
    simp [ensureAsrConnection, hun, hcs]
  · intro ws hn hd hun
    have hcs := hsucc 0 ws hn (fun i hi => absurd hi (Nat.not_lt_zero i)) hd
    simp [ensureAsrConnection, hun, hcs]
  · intro hu
    simp [ensureAsrConnection, hu]

/-- Witness for C5: three attempts with base delay 2 all fail, producing
sleeps 2 and 4 and a raised failure with the link left empty. -/
theorem ensure_connection_retry_witness :
    ensureAsrConnection 3 2 (fun _ => none) ⟨none, none⟩ =
      (⟨none, none⟩, Except.error (), [2, 4]) :=
  (ensure_connection_retry 3 2 (fun _ => none) ⟨none, none⟩).2.2.1
    (fun _ _ => rfl) rfl

/-- C6: the claim says a round-trip timeout raises ServiceTimeout, a
transport error raises ServiceFailure, and both clear the cached link so
the next call re-dials; on the code, every round trip evaluates the
undeclared settings.SERVICE_TIMEOUT and raises AttributeError before
anything is sent — an error caught by neither the TimeoutError arm nor the
WebSocketException arm — so neither claimed error is ever raised, the
cached link is NOT cleared, and the next call finds the still-usable link
and does not re-dial: whatever the send and recv outcomes would have been,
both round trips return the AttributeError with the links untouched. -/
theorem round_trip_settings_bug (n delay : Nat) (dial : Nat → Option Link)
    (st : ServiceLinks) (sendS : StepOutcome Unit) (recvS : StepOutcome String)
    (sendB : StepOutcome Unit) (recvB : StepOutcome (List Nat))
    (hasr : linkUsable st.asr_ws = true)
    (htts : linkUsable st.tts_ws = true) :
    speechToText n delay dial sendS recvS st =
      (st, Except.error (ServiceError.attributeError "SERVICE_TIMEOUT"), []) ∧
    textToSpeech n delay dial sendB recvB st =
      (st, Except.error (ServiceError.attributeError "SERVICE_TIMEOUT"), []) ∧
    ensureAsrConnection n delay dial st = (st, Except.ok true, []) ∧
    ensureTtsConnection n delay dial st = (st, Except.ok true, []) := by
  refine ⟨?_, ?_, ?_, ?_⟩
  · simp [speechToText, ensureAsrConnection, hasr, settingsHasServiceTimeout]
  · simp [textToSpeech, ensureTtsConnection, htts, settingsHasServiceTimeout]
  · simp [ensureAsrConnection, hasr]
  · simp [ensureTtsConnection, htts]

/-- Witness for C6: a round trip on a session holding open ASR and TTS
links raises the AttributeError and leaves both links cached. -/
theorem round_trip_settings_bug_witness :
    speechToText 3 1 (fun _ => none) StepOutcome.timeout StepOutcome.timeout
      ⟨some ⟨1, false⟩, some ⟨2, false⟩⟩ =
      (⟨some ⟨1, false⟩, some ⟨2, false⟩⟩,
       Except.error (ServiceError.attributeError "SERVICE_TIMEOUT"), []) :=
  (round_trip_settings_bug 3 1 (fun _ => none)
    ⟨some ⟨1, false⟩, some ⟨2, false⟩⟩ StepOutcome.timeout StepOutcome.timeout
    StepOutcome.timeout StepOutcome.timeout rfl rfl).1

end Xiaozhi
